import Mathlib

/-!
# neuPrintHTTP: the login gateway of `secure/auth.go`

A shallow embedding of the handlers of `src/secure/auth.go` and of the library
calls they rely on, followed by theorems about them.

Go strings are embedded as `String`, a Go `error` as an `Option String` holding
its message (`none` is `nil`) or as the error side of an `Except`, and the
pointers that the code tests or that come from outside as `Option`. A handler
is a function of the environment (the provider, the clock, the signer), the
request and the state of the session backend; it returns the new backend state,
the sessions it saved and how the call ended.
-/

namespace url

/-! ## `net/url`: the standard-library parser `validateRedirectURL` calls

`url.Parse` is not part of the repository; it is embedded here after the Go
standard library (as of Go 1.13) so that `validateRedirectURL` can be run on
concrete inputs. Strings are walked as lists of characters; the parser only
ever tests for ASCII bytes, which a character above 127 never contains. -/

/-- The fields of Go's `url.URL` that `Parse` fills in (`RawPath` and
`ForceQuery`, which only record how the input was spelled, are left out). -/
structure URL where
  Scheme : String
  Opaque : String
  User : Option (String × Option String)
  Host : String
  Path : String
  RawQuery : String
  Fragment : String
deriving DecidableEq, Repr

/-- The zero `URL`, what `new(URL)` gives. -/
def URL.empty : URL := ⟨"", "", none, "", "", "", ""⟩

/-- Go's `(*URL).IsAbs`: `return u.Scheme != ""`. -/
def URL.IsAbs (u : URL) : Bool := u.Scheme != ""

/-- The escaping contexts of `net/url` that `Parse` uses. -/
inductive encoding
  | encodePath
  | encodeHost
  | encodeZone
  | encodeUserPassword
  | encodeFragment
deriving DecidableEq, Repr

/-- Go's `strconv.Quote` on text without quotes, backslashes or unprintable
characters: the text between double quotes. -/
def quote (s : List Char) : String := String.mk ([Char.ofNat 34] ++ s ++ [Char.ofNat 34])

def isUpperAZ (c : Char) : Bool := decide (65 ≤ c.toNat) && decide (c.toNat ≤ 90)

def isLowerAZ (c : Char) : Bool := decide (97 ≤ c.toNat) && decide (c.toNat ≤ 122)

def isDigit09 (c : Char) : Bool := decide (48 ≤ c.toNat) && decide (c.toNat ≤ 57)

/-- Go's `ishex`. -/
def ishex (c : Char) : Bool :=
  isDigit09 c || (decide (97 ≤ c.toNat) && decide (c.toNat ≤ 102))
    || (decide (65 ≤ c.toNat) && decide (c.toNat ≤ 70))

/-- Go's `unhex`. -/
def unhex (c : Char) : Nat :=
  if isDigit09 c then c.toNat - 48
  else if decide (97 ≤ c.toNat) && decide (c.toNat ≤ 102) then c.toNat - 97 + 10
  else if decide (65 ≤ c.toNat) && decide (c.toNat ≤ 70) then c.toNat - 65 + 10
  else 0

/-- Go's `shouldEscape(c, encodeHost)`, the only mode `unescape` asks about:
letters, digits, the sub-delimiters allowed in a registered name together with
`: [ ] < > "`, and the unreserved marks need no escaping in a host. -/
def shouldEscapeHost (c : Char) : Bool :=
  if isUpperAZ c || isLowerAZ c || isDigit09 c then false
  else if c ∈ ['!', '$', '&', Char.ofNat 39, '(', ')', '*', '+', ',', ';', '=', ':', '[', ']',
      '<', '>', Char.ofNat 34] then false
  else if c ∈ ['-', '_', '.', '~'] then false
  else true

/-- The first loop of Go's `unescape`: checks that every `%` starts a
well-formed escape that the mode allows and, in a host or zone, that no ASCII
byte needing an escape stands unescaped. Returns the error, if any. -/
def unescapeCheck (mode : encoding) : List Char → Option String
  | [] => none
  | '%' :: a :: b :: rest =>
    if !(ishex a) || !(ishex b) then some ("invalid URL escape " ++ quote ['%', a, b])
    else if mode = .encodeHost && decide (unhex a < 8) && (a, b) != ('2', '5') then
      some ("invalid URL escape " ++ quote ['%', a, b])
    else if mode = .encodeZone && (a, b) != ('2', '5') && (unhex a * 16 + unhex b) != 32
        && shouldEscapeHost (Char.ofNat (unhex a * 16 + unhex b)) then
      some ("invalid URL escape " ++ quote ['%', a, b])
    else unescapeCheck mode rest
  | '%' :: rest => some ("invalid URL escape " ++ quote ('%' :: rest))
  | c :: rest =>
    if c != '+' && (mode = .encodeHost || mode = .encodeZone) && decide (c.toNat < 128)
        && shouldEscapeHost c then
      some ("invalid character " ++ quote [c] ++ " in host name")
    else unescapeCheck mode rest

/-- The second loop of Go's `unescape`: replaces every `%XY` by the byte it
names (a byte above 127 is shown as the character with that code). -/
def unescapeDecode : List Char → List Char
  | [] => []
  | '%' :: a :: b :: rest => Char.ofNat (unhex a * 16 + unhex b) :: unescapeDecode rest
  | c :: rest => c :: unescapeDecode rest

/-- Go's `unescape(s, mode)` for the modes `Parse` uses. -/
def unescape (s : List Char) (mode : encoding) : Except String (List Char) :=
  match unescapeCheck mode s with
  | some e => .error e
  | none => .ok (unescapeDecode s)

/-- Go's `split(s, c, true)` for a one-byte separator: the text before the
first `sep` and the text after it; no `sep` gives `(s, "")`. -/
def cut (sep : Char) : List Char → List Char × List Char
  | [] => ([], [])
  | c :: cs => if c = sep then ([], cs) else ((cut sep cs).1.cons c, (cut sep cs).2)

/-- Go's `split(s, c, false)`: as `cut`, but the separator stays at the head
of the second part. -/
def splitKeep (sep : Char) : List Char → List Char × List Char
  | [] => ([], [])
  | c :: cs => if c = sep then ([], c :: cs) else ((splitKeep sep cs).1.cons c, (splitKeep sep cs).2)

/-- Splits at the LAST `sep` (Go's `strings.LastIndex`): `none` when `sep`
does not occur, otherwise the text before it and the text after it. -/
def cutLast (sep : Char) (s : List Char) : Option (List Char × List Char) :=
  if sep ∈ s then
    some ((cut sep s.reverse).2.reverse, (cut sep s.reverse).1.reverse)
  else none

/-- Go's `stringContainsCTLByte`. -/
def stringContainsCTLByte (s : List Char) : Bool :=
  s.any (fun b => decide (b.toNat < 32) || decide (b.toNat = 127))

/-- ASCII lower-casing, what `strings.ToLower` does to a scheme. -/
def toLowerByte (c : Char) : Char := if isUpperAZ c then Char.ofNat (c.toNat + 32) else c

/-- The loop of Go's `getscheme`; `seen` is `rawurl[:i]`, the second list is
`rawurl[i:]`. -/
def getschemeLoop (rawurl : List Char) : List Char → List Char → Except String (List Char × List Char)
  | _, [] => .ok ([], rawurl)
  | seen, c :: cs =>
    if isLowerAZ c || isUpperAZ c then getschemeLoop rawurl (seen ++ [c]) cs
    else if isDigit09 c || c = '+' || c = '-' || c = '.' then
      if seen = [] then .ok ([], rawurl) else getschemeLoop rawurl (seen ++ [c]) cs
    else if c = ':' then
      if seen = [] then .error "missing protocol scheme" else .ok (seen, cs)
    else .ok ([], rawurl)

/-- Go's `getscheme`: splits off a leading `scheme:`; a string with no valid
scheme is returned whole, with an empty scheme. -/
def getscheme (rawurl : List Char) : Except String (List Char × List Char) :=
  getschemeLoop rawurl [] rawurl

/-- Go's `validOptionalPort`: empty, or a colon followed by digits only. -/
def validOptionalPort : List Char → Bool
  | [] => true
  | c :: rest => c = ':' && rest.all isDigit09

/-- Go's `validUserinfo`. -/
def validUserinfo (s : List Char) : Bool :=
  s.all (fun r => isUpperAZ r || isLowerAZ r || isDigit09 r ||
    decide (r ∈ ['-', '.', '_', ':', '~', '!', '$', '&', Char.ofNat 39, '(', ')', '*', '+', ',',
      ';', '=', '%', '@']))

/-- Index of the first `%25` in `s`, Go's `strings.Index(s, "%25")`. -/
def indexPct25 : List Char → Option Nat
  | [] => none
  | c :: rest =>
    if (c :: rest).take 3 = ['%', '2', '5'] then some 0
    else (indexPct25 rest).map (· + 1)

/-- Go's `parseHost`. -/
def parseHost (host : List Char) : Except String (List Char) :=
  let plain : Except String (List Char) := unescape host .encodeHost
  if host.head? = some '[' then
    match cutLast ']' host with
    | none => .error "missing ']' in host"
    | some (upto, colonPort) =>
      if !(validOptionalPort colonPort) then
        .error ("invalid port " ++ quote colonPort ++ " after host")
      else
        match indexPct25 upto with
        | some zone =>
          match unescape (host.take zone) .encodeHost with
          | .error e => .error e
          | .ok host1 =>
            match unescape ((host.take upto.length).drop zone) .encodeZone with
            | .error e => .error e
            | .ok host2 =>
              match unescape (host.drop upto.length) .encodeHost with
              | .error e => .error e
              | .ok host3 => .ok (host1 ++ host2 ++ host3)
        | none => plain
  else
    match cutLast ':' host with
    | some (_, port) =>
      if !(validOptionalPort (':' :: port)) then
        .error ("invalid port " ++ quote (':' :: port) ++ " after host")
      else plain
    | none => plain

/-- Go's `parseAuthority`: `[userinfo@]host`. -/
def parseAuthority (authority : List Char) :
    Except String (Option (String × Option String) × List Char) :=
  match cutLast '@' authority with
  | none =>
    match parseHost authority with
    | .error e => .error e
    | .ok host => .ok (none, host)
  | some (userinfo, hostPart) =>
    match parseHost hostPart with
    | .error e => .error e
    | .ok host =>
      if !(validUserinfo userinfo) then .error "net/url: invalid userinfo"
      else if !(':' ∈ userinfo) then
        match unescape userinfo .encodeUserPassword with
        | .error e => .error e
        | .ok u => .ok (some (String.mk u, none), host)
      else
        match unescape (cut ':' userinfo).1 .encodeUserPassword with
        | .error e => .error e
        | .ok username =>
          match unescape (cut ':' userinfo).2 .encodeUserPassword with
          | .error e => .error e
          | .ok password => .ok (some (String.mk username, some (String.mk password)), host)

/-- Go's `(*URL).setPath` as far as `Path` goes. -/
def setPath (u : URL) (p : List Char) : Except String URL :=
  match unescape p .encodePath with
  | .error e => .error e
  | .ok path => .ok { u with Path := String.mk path }

/-- Go's `parse(rawurl, viaRequest)` with `viaRequest = false`, as `Parse`
calls it. -/
def parse (rawurl : List Char) : Except String URL :=
  if stringContainsCTLByte rawurl then .error "net/url: invalid control character in URL"
  else if rawurl = ['*'] then .ok { URL.empty with Path := "*" }
  else
    match getscheme rawurl with
    | .error e => .error e
    | .ok (scheme, rest0) =>
      let scheme := scheme.map toLowerByte
      let restQuery : List Char × List Char :=
        if rest0.getLast? = some '?' && rest0.count '?' = 1 then (rest0.dropLast, [])
        else cut '?' rest0
      let rest := restQuery.1
      let u : URL := { URL.empty with Scheme := String.mk scheme, RawQuery := String.mk restQuery.2 }
      if rest.head? ≠ some '/' && scheme ≠ [] then
        -- rootless paths are opaque
        .ok { u with Opaque := String.mk rest }
      else if rest.head? ≠ some '/' && ':' ∈ (cut '/' rest).1 then
        .error "first path segment in URL cannot contain colon"
      else if (scheme ≠ [] || rest.take 3 ≠ ['/', '/', '/']) && rest.take 2 = ['/', '/'] then
        match parseAuthority (splitKeep '/' (rest.drop 2)).1 with
        | .error e => .error e
        | .ok (user, host) =>
          setPath { u with User := user, Host := String.mk host } (splitKeep '/' (rest.drop 2)).2
      else setPath u rest

/-- Go's `url.Parse`: cuts off the fragment, parses the rest, then unescapes
the fragment. Errors are wrapped as `parse <url>: <cause>`. -/
def Parse (rawurl : String) : Except String URL :=
  match parse (cut '#' rawurl.data).1 with
  | .error e => .error ("parse " ++ String.mk (cut '#' rawurl.data).1 ++ ": " ++ e)
  | .ok u =>
    if (cut '#' rawurl.data).2 = [] then .ok u
    else
      match unescape (cut '#' rawurl.data).2 .encodeFragment with
      | .error e => .error ("parse " ++ rawurl ++ ": " ++ e)
      | .ok frag => .ok { u with Fragment := String.mk frag }

end url

/-! ## Library types the handlers use -/

namespace oauth2

/-- Go's `oauth2.Token`. `Expiry` is a `time.Time`, counted here in nanoseconds
since the Unix epoch. -/
structure Token where
  AccessToken : String
  TokenType : String
  RefreshToken : String
  Expiry : Int
deriving DecidableEq, Repr

/-- The zero `time.Time` (1 January of year 1, UTC) in nanoseconds since the
Unix epoch; `Time.IsZero` tests for it. -/
def zeroTime : Int := -62135596800 * 1000000000

/-- The constant `expiryDelta` of package `oauth2`: ten seconds. -/
def expiryDelta : Int := 10 * 1000000000

/-- Go's `(*Token).expired`: a zero expiry never expires, otherwise the token
is expired from ten seconds before `Expiry`. -/
def Token.expired (now : Int) (t : Token) : Bool :=
  if t.Expiry = zeroTime then false
  else decide (t.Expiry - expiryDelta < now)

/-- Go's `(*Token).Valid`, which accepts a nil receiver:
`t != nil && t.AccessToken != "" && !t.expired()`. -/
def Token.Valid (now : Int) : Option Token → Bool
  | none => false
  | some t => t.AccessToken != "" && !(t.expired now)

end oauth2

namespace plus

/-- Go's `plus.PersonEmails` (its field `Type` is spelled `Kind` here). -/
structure PersonEmails where
  Kind : String
  Value : String
deriving DecidableEq, Repr

/-- Go's `plus.PersonImage`. -/
structure PersonImage where
  IsDefault : Bool
  Url : String
deriving DecidableEq, Repr

/-- Go's `plus.Person`, with the fields `stripProfile` reads and a sample of
those it drops. `Emails` is a slice of pointers and `Image` a pointer. -/
structure Person where
  DisplayName : String
  Id : String
  Emails : List (Option PersonEmails)
  Image : Option PersonImage
  Url : String
deriving DecidableEq, Repr

end plus

namespace secure

/-! ## `secure/auth.go` -/

def defaultSessionID : String := "neuPrintHTTP"

def googleProfileSessionKey : String := "google_profile"

def oauthTokenSessionKey : String := "oauth_token"

def oauthFlowRedirectKey : String := "redirect"

def COOKIEEXPIRE : Int := 86400 * 30

/-- Go's `jwt.StandardClaims`, of which the code sets `ExpiresAt`. -/
structure StandardClaims where
  ExpiresAt : Int
deriving DecidableEq, Repr

/-- The struct `jwtCustomClaims`; the field order is the source's. -/
structure jwtCustomClaims where
  Email : String
  ImageURL : String
  Standard : StandardClaims
deriving DecidableEq, Repr

/-- The struct `Profile`, declared in the source as `ImageURL, Email string`:
`ImageURL` is the first field and `Email` the second. -/
structure Profile where
  ImageURL : String
  Email : String
deriving DecidableEq, Repr

/-- A runtime panic of the Go program. -/
inductive Panic
  | nilDereference
  | indexOutOfRange
deriving DecidableEq, Repr

/-- A value kept in `session.Values`, a `map[interface{}]interface{}`: the
three dynamic types the code stores and asserts. The two pointer types may
hold nil. -/
inductive Value
  | str (s : String)
  | token (t : Option oauth2.Token)
  | profile (p : Option Profile)
deriving DecidableEq, Repr

/-- The map `session.Values`, restricted to string keys. -/
abbrev Values := String → Option Value

/-- The empty `Values` map. -/
def Values.empty : Values := fun _ => none

/-- The assignment `values[key] = x`. -/
def Values.set (values : Values) (key : String) (x : Value) : Values :=
  fun k => if k = key then some x else values k

/-- Go's `sessions.Options`. -/
structure Options where
  Path : String
  Domain : String
  MaxAge : Int
  Secure : Bool
  HttpOnly : Bool
deriving DecidableEq, Repr

/-- A `*sessions.Session` as a handler holds it. -/
structure Session where
  name : String
  Values : Values
  Options : Options

/-- What the session backend holds under one session name: nothing, a cookie
that cannot be decoded, or the values of a saved session. -/
inductive Cookie
  | absent
  | invalid (err : String)
  | valid (values : Values)

/-- The state of the session backend (gorilla/sessions behind
echo-contrib/session): the cookies by session name and the store-wide default
options that every session returned by `Get` starts from. -/
structure Store where
  cookies : String → Cookie
  Options : Options

/-- The value stored under `key` in the saved session `name`, if any. -/
def Store.lookup (st : Store) (name key : String) : Option Value :=
  match st.cookies name with
  | .valid values => values key
  | _ => none

/-- Go's `jwt.Token` as the JWT middleware leaves it under the context key
`user`: non-nil, with claims of type `*jwtCustomClaims`. -/
structure JwtToken where
  Claims : jwtCustomClaims
deriving DecidableEq, Repr

/-- The request side of an `echo.Context`: query parameters, form values (an
absent parameter reads as the empty string) and the value under the context
key `user` when it is a `*jwt.Token`. -/
structure Context where
  QueryParam : String → String
  FormValue : String → String
  user : Option JwtToken

/-- Everything a handler calls outside this package. -/
structure Env where
  /-- The result of `uuid.Must(uuid.NewV4()).String()`. -/
  newUUID : String
  /-- The reading of `time.Now()`, in nanoseconds since the Unix epoch. -/
  now : Int
  /-- The call `OAuthConfig.AuthCodeURL(state, oauth2.AccessTypeOnline)`. -/
  AuthCodeURL : String → String
  /-- The call `OAuthConfig.Exchange(ctx, code)`. -/
  Exchange : String → Except String oauth2.Token
  /-- The error of `plus.New(client)` for a client built on the token. -/
  plusNew : oauth2.Token → Option String
  /-- The call `plusService.People.Get("me").Do()`. -/
  PeopleGetMe : oauth2.Token → Except String plus.Person
  /-- The call `token.SignedString(JWTSecret)` on a token with these claims. -/
  SignedString : jwtCustomClaims → Except String String
  /-- The error of `session.Save` for a session, `none` when saving works. -/
  saveError : Session → Option String

/-- The body of a JSON response. -/
inductive Body
  | token (t : String)
  | profile (p : Option Profile)
deriving DecidableEq, Repr

/-- How a handler call ends: it returns an error, writes a response, or
panics. -/
inductive Result
  | error (err : String)
  | Redirect (code : Nat) (url : String)
  | HTML (code : Nat) (html : String)
  | JSON (code : Nat) (body : Body)
  | panic (p : Panic)
deriving DecidableEq, Repr

/-- The outcome of a handler call: the session backend afterwards, the
sessions the call saved (oldest first) and how the call ended. -/
structure Out where
  store : Store
  saved : List Session
  result : Result

/-- The call `session.Get(name, c)`: an undecodable cookie gives an error, no
cookie gives a new session with no values, and every session carries a copy of
the store's default options. -/
def session.Get (name : String) (st : Store) : Except String Session :=
  match st.cookies name with
  | .invalid err => .error err
  | .absent => .ok { name := name, Values := Values.empty, Options := st.Options }
  | .valid values => .ok { name := name, Values := values, Options := st.Options }

/-- The call `s.Save(c.Request(), c.Response())`: on success the backend holds
the session's values under its name, or nothing when the session's `MaxAge` is
negative (the cookie is deleted); on failure the backend is unchanged. -/
def Session.Save (env : Env) (st : Store) (s : Session) : Except String Store :=
  match env.saveError s with
  | some err => .error err
  | none =>
    .ok { st with cookies := fun n =>
      if n = s.name then (if s.Options.MaxAge < 0 then Cookie.absent else Cookie.valid s.Values)
      else st.cookies n }

/-- Go's `validateRedirectURL`: the destination and the error (`none` is a
nil error). -/
def validateRedirectURL (path : String) : String × Option String :=
  if path = "" then ("/profile", none)
  else
    match url.Parse path with
    | .error err => ("/profile", some err)
    | .ok parsedURL =>
      if parsedURL.IsAbs then ("/profile", some "URL must not be absolute")
      else (path, none)

/-- The part of `loginHandler` after the `auto` block: the fresh OAuth flow
under `sessionID`. -/
def loginFlow (env : Env) (c : Context) (st : Store) (sessionID : String) : Out :=
  match session.Get sessionID st with
  | .error err => ⟨st, [], .error ("could not create oauth session: " ++ err)⟩
  | .ok oauthFlowSession =>
    let oauthFlowSession : Session := { oauthFlowSession with
      Options := { Path := "", Domain := "", MaxAge := COOKIEEXPIRE, Secure := false,
                   HttpOnly := true } }
    match validateRedirectURL (c.FormValue "redirect") with
    | (_, some err) => ⟨st, [], .error ("invalid redirect URL: " ++ err)⟩
    | (redirectURL, none) =>
      let oauthFlowSession : Session := { oauthFlowSession with
        Values := oauthFlowSession.Values.set oauthFlowRedirectKey (.str redirectURL) }
      match oauthFlowSession.Save env st with
      | .error err => ⟨st, [], .error ("could not save session: " ++ err)⟩
      | .ok st1 => ⟨st1, [oauthFlowSession], .Redirect 302 (env.AuthCodeURL sessionID)⟩

/-- Go's `loginHandler`. In the `auto` block the error of `Save` is dropped,
as in the source. -/
def loginHandler (env : Env) (c : Context) (st : Store) : Out :=
  let sessionID := env.newUUID
  let auto := c.QueryParam "auto"
  if auto = "true" then
    match session.Get defaultSessionID st with
    | .ok currSession =>
      match currSession.Values googleProfileSessionKey with
      | some (.profile (some _)) =>
        match currSession.Save env st with
        | .ok st1 => ⟨st1, [currSession], .Redirect 302 "/profile"⟩
        | .error _ => ⟨st, [], .Redirect 302 "/profile"⟩
      | _ => loginFlow env c st sessionID
    | .error _ => loginFlow env c st sessionID
  else loginFlow env c st sessionID

/-- Go's `fetchProfile`. -/
def fetchProfile (env : Env) (tok : oauth2.Token) : Except String plus.Person :=
  match env.plusNew tok with
  | some err => .error err
  | none => env.PeopleGetMe tok

/-- Go's `stripProfile`. The composite literal evaluates `p.Image.Url` first
(a nil `Image` panics), then `p.Emails[0].Value` (an empty slice or a nil
element panics). -/
def stripProfile (p : plus.Person) : Except Panic Profile :=
  match p.Image with
  | none => .error .nilDereference
  | some image =>
    match p.Emails with
    | [] => .error .indexOutOfRange
    | none :: _ => .error .nilDereference
    | some email :: _ => .ok { ImageURL := image.Url, Email := email.Value }

/-- Go's `oauthCallbackHandler`. -/
def oauthCallbackHandler (env : Env) (c : Context) (st : Store) : Out :=
  match session.Get (c.FormValue "state") st with
  | .error _ => ⟨st, [], .error "invalid state parameter. try logging in again."⟩
  | .ok oauthFlowSession =>
    match oauthFlowSession.Values oauthFlowRedirectKey with
    | some (.str redirectURL) =>
      let code := c.FormValue "code"
      match env.Exchange code with
      | .error err => ⟨st, [], .error ("could not get auth token: " ++ err)⟩
      | .ok tok =>
        match session.Get defaultSessionID st with
        | .error err => ⟨st, [], .error ("could not get default session: " ++ err)⟩
        | .ok sessionNew =>
          match fetchProfile env tok with
          | .error err => ⟨st, [], .error ("could not fetch Google profile: " ++ err)⟩
          | .ok profile =>
            match stripProfile profile with
            | .error p => ⟨st, [], .panic p⟩
            | .ok stripped =>
              let sessionNew : Session := { sessionNew with
                Values := (sessionNew.Values.set oauthTokenSessionKey (.token (some tok))).set
                  googleProfileSessionKey (.profile (some stripped)) }
              match sessionNew.Save env st with
              | .error err => ⟨st, [], .error ("could not save session: " ++ err)⟩
              | .ok st1 => ⟨st1, [sessionNew], .Redirect 302 redirectURL⟩
    | _ => ⟨st, [], .error "invalid state parameter. try logging in again."⟩

/-- Go's `logoutHandler`. The redirect parameter is read and defaulted but
never used: the response is `c.HTML(http.StatusOK, "")`. -/
def logoutHandler (env : Env) (c : Context) (st : Store) : Out :=
  match session.Get defaultSessionID st with
  | .error err => ⟨st, [], .error ("could not get default session: " ++ err)⟩
  | .ok currSession =>
    let currSession : Session := { currSession with
      Options := { currSession.Options with MaxAge := -1 } }
    match currSession.Save env st with
    | .error err => ⟨st, [], .error ("could not save session: " ++ err)⟩
    | .ok st1 =>
      let redirectURL := c.FormValue "redirect"
      let _redirectURL := if redirectURL = "" then "/" else redirectURL
      ⟨st1, [currSession], .HTML 200 ""⟩

/-- Go's `profileFromSession`; `none` is the nil `*Profile`. The bearer-token
branch builds `&Profile{email, url}`, an unkeyed literal, so `email` lands in
the first field and `url` in the second. -/
def profileFromSession (env : Env) (c : Context) (st : Store) : Option Profile :=
  match c.user with
  | some user =>
    let claims := user.Claims
    let email := claims.Email
    let url := claims.ImageURL
    some (Profile.mk email url)
  | none =>
    match session.Get defaultSessionID st with
    | .error _ => none
    | .ok currSession =>
      match currSession.Values oauthTokenSessionKey with
      | some (.token tok) =>
        if !(oauth2.Token.Valid env.now tok) then none
        else
          match currSession.Values googleProfileSessionKey with
          | some (.profile profile) => profile
          | _ => none
      | _ => none

/-- Go's `profileHandler`. -/
def profileHandler (env : Env) (c : Context) (st : Store) : Out :=
  ⟨st, [], .JSON 200 (.profile (profileFromSession env c st))⟩

/-- The duration `time.Hour`, in nanoseconds. -/
def Hour : Int := 3600 * 1000000000

/-- Go's `(Time).Unix`: whole seconds since the Unix epoch. -/
def Unix (t : Int) : Int := Int.fdiv t 1000000000

/-- The claims `tokenHandler` builds for a profile: the unkeyed literal
`&jwtCustomClaims{profile.Email, profile.ImageURL, jwt.StandardClaims{...}}`
with `ExpiresAt: time.Now().Add(time.Hour * 50000).Unix()`. -/
def tokenClaims (now : Int) (profile : Profile) : jwtCustomClaims :=
  jwtCustomClaims.mk profile.Email profile.ImageURL ⟨Unix (now + Hour * 50000)⟩

/-- Go's `tokenHandler`. The profile is dereferenced without a nil check, so
a nil profile panics. -/
def tokenHandler (env : Env) (c : Context) (st : Store) : Out :=
  match profileFromSession env c st with
  | none => ⟨st, [], .panic .nilDereference⟩
  | some profile =>
    let claims := tokenClaims env.now profile
    match env.SignedString claims with
    | .error err => ⟨st, [], .error err⟩
    | .ok t => ⟨st, [], .JSON 200 (.token t)⟩

/-! ## Sample data for the concrete runs -/

/-- A provider token with no expiry. -/
def sampleToken : oauth2.Token := ⟨"ya29.sample", "Bearer", "", oauth2.zeroTime⟩

/-- A provider token that expired at second 1000 of the Unix epoch. -/
def expiredToken : oauth2.Token := ⟨"ya29.old", "Bearer", "", 1000 * 1000000000⟩

/-- A provider profile with one email and an image. -/
def samplePerson : plus.Person :=
  { DisplayName := "Ada", Id := "42", Emails := [some ⟨"account", "user@example.org"⟩],
    Image := some ⟨false, "https://img.example/u.png"⟩, Url := "https://plus.example/42" }

/-- A provider profile with no email at all. -/
def personWithoutEmail : plus.Person := { samplePerson with Emails := [] }

/-- A provider profile with no image. -/
def personWithoutImage : plus.Person := { samplePerson with Image := none }

/-- The identity of `samplePerson`. -/
def sampleProfile : Profile := { ImageURL := "https://img.example/u.png", Email := "user@example.org" }

/-- An environment at second 2000 of the Unix epoch in which the provider
accepts the code `C` and every save works. -/
def sampleEnv : Env :=
  { newUUID := "6ba7b810-9dad-11d1-80b4-00c04fd430c8"
    now := 2000 * 1000000000
    AuthCodeURL := fun state => "https://accounts.example/auth?state=" ++ state
    Exchange := fun code => if code = "C" then .ok sampleToken else .error "invalid_grant"
    plusNew := fun _ => none
    PeopleGetMe := fun _ => .ok samplePerson
    SignedString := fun claims => .ok ("signed:" ++ claims.Email)
    saveError := fun _ => none }

/-- The sample environment with a provider that rejects every code, as a
provider does for a code that was already redeemed. -/
def replayEnv : Env := { sampleEnv with Exchange := fun _ => .error "invalid_grant" }

/-- The store-wide session options: thirty days, `HttpOnly`. -/
def sampleOptions : Options := ⟨"/", "", COOKIEEXPIRE, false, true⟩

/-- A backend with no cookie at all. -/
def emptyStore : Store := ⟨fun _ => Cookie.absent, sampleOptions⟩

/-- A backend after `GET /login?redirect=/reports`: the flow session `S` holds
the redirect `/reports`. -/
def pendingStore : Store :=
  ⟨fun n => if n = "S" then Cookie.valid (Values.empty.set oauthFlowRedirectKey (.str "/reports"))
    else Cookie.absent, sampleOptions⟩

/-- A backend whose default session holds `sampleProfile` and a valid token. -/
def loggedInStore : Store :=
  ⟨fun n => if n = defaultSessionID then
      Cookie.valid ((Values.empty.set oauthTokenSessionKey (.token (some sampleToken))).set
        googleProfileSessionKey (.profile (some sampleProfile)))
    else Cookie.absent, sampleOptions⟩

/-- A backend whose default session holds `sampleProfile` and a provider token
that has expired. -/
def staleStore : Store :=
  ⟨fun n => if n = defaultSessionID then
      Cookie.valid ((Values.empty.set oauthTokenSessionKey (.token (some expiredToken))).set
        googleProfileSessionKey (.profile (some sampleProfile)))
    else Cookie.absent, sampleOptions⟩

/-- A request with no parameters and no bearer token. -/
def plainContext : Context := ⟨fun _ => "", fun _ => "", none⟩

/-- The request `GET /login?auto=true`. -/
def autoContext : Context := ⟨fun k => if k = "auto" then "true" else "", fun _ => "", none⟩

/-- The request `GET /oauth2callback?state=S&code=C`. -/
def callbackContext : Context :=
  ⟨fun _ => "", fun k => if k = "state" then "S" else if k = "code" then "C" else "", none⟩

/-- The request `GET /oauth2callback?state=S&code=X`, with a code the sample
provider rejects. -/
def rejectedContext : Context :=
  ⟨fun _ => "", fun k => if k = "state" then "S" else if k = "code" then "X" else "", none⟩

/-- A request whose verified bearer token carries the given claims. -/
def bearerContext (claims : jwtCustomClaims) : Context := ⟨fun _ => "", fun _ => "", some ⟨claims⟩⟩

end secure

/-! ## Theorems -/

namespace secure

/-! ### Helper lemmas -/

theorem session_Get_ok {name : String} {st : Store} {s : Session}
    (h : session.Get name st = .ok s) :
    s.name = name ∧ s.Options = st.Options ∧
      ((st.cookies name = Cookie.absent ∧ s.Values = Values.empty) ∨
        st.cookies name = Cookie.valid s.Values) := by
  unfold session.Get at h
  split at h
  · cases h
  · cases h
    simp_all
  · cases h
    simp_all

theorem session_Get_lookup {name key : String} {st : Store} {s : Session} {v : Value}
    (h : session.Get name st = .ok s) (hv : s.Values key = some v) :
    st.lookup name key = some v := by
  obtain ⟨_, _, h3⟩ := session_Get_ok h
  rcases h3 with ⟨_, h4⟩ | h4
  · rw [h4] at hv
    simp [Values.empty] at hv
  · simp [Store.lookup, h4, hv]

theorem lookup_session_Get {name key : String} {st : Store} {v : Value}
    (h : st.lookup name key = some v) :
    ∃ s, session.Get name st = .ok s ∧ s.Values key = some v := by
  unfold Store.lookup at h
  unfold session.Get
  split at h
  · next values hc => exact ⟨⟨name, values, st.Options⟩, by simp [hc], h⟩
  · cases h

theorem Session_Save_cookies {env : Env} {st st1 : Store} {s : Session}
    (h : s.Save env st = .ok st1) :
    st1.Options = st.Options ∧
    (∀ n, n ≠ s.name → st1.cookies n = st.cookies n) ∧
    st1.cookies s.name
      = (if s.Options.MaxAge < 0 then Cookie.absent else Cookie.valid s.Values) := by
  unfold Session.Save at h
  split at h
  · cases h
  · cases h
    refine ⟨rfl, ?_, ?_⟩
    · intro n hn
      simp [hn]
    · simp

theorem append_ne_of_head {a b : String} (e : String) (ha : a.data ≠ [])
    (hab : a.data.head? ≠ b.data.head?) : a ++ e ≠ b := by
  intro h
  apply hab
  rw [← h]
  cases hd : a.data with
  | nil => exact absurd hd ha
  | cons x xs => simp [String.data_append, hd]

theorem auth_token_error_ne (e : String) :
    "could not get auth token: " ++ e ≠ "invalid state parameter. try logging in again." :=
  append_ne_of_head e (by decide) (by decide)

theorem default_session_error_ne (e : String) :
    "could not get default session: " ++ e ≠ "invalid state parameter. try logging in again." :=
  append_ne_of_head e (by decide) (by decide)

theorem fetch_profile_error_ne (e : String) :
    "could not fetch Google profile: " ++ e ≠ "invalid state parameter. try logging in again." :=
  append_ne_of_head e (by decide) (by decide)

theorem save_session_error_ne (e : String) :
    "could not save session: " ++ e ≠ "invalid state parameter. try logging in again." :=
  append_ne_of_head e (by decide) (by decide)

/-- What a successful callback went through: every step succeeded, the session
saved is the default session and the redirect is the stored one. -/
theorem oauthCallbackHandler_redirect_inv {env : Env} {c : Context} {st : Store}
    {code : Nat} {r : String}
    (h : (oauthCallbackHandler env c st).result = .Redirect code r) :
    ∃ s tok sessionNew person stripped st1,
      session.Get (c.FormValue "state") st = .ok s ∧
      s.Values oauthFlowRedirectKey = some (.str r) ∧
      env.Exchange (c.FormValue "code") = .ok tok ∧
      session.Get defaultSessionID st = .ok sessionNew ∧
      fetchProfile env tok = .ok person ∧
      stripProfile person = .ok stripped ∧
      Session.Save env st { sessionNew with
        Values := (sessionNew.Values.set oauthTokenSessionKey (.token (some tok))).set
          googleProfileSessionKey (.profile (some stripped)) } = .ok st1 ∧
      code = 302 ∧
      (oauthCallbackHandler env c st).store = st1 ∧
      (oauthCallbackHandler env c st).saved = [{ sessionNew with
        Values := (sessionNew.Values.set oauthTokenSessionKey (.token (some tok))).set
          googleProfileSessionKey (.profile (some stripped)) }] := by
  unfold oauthCallbackHandler at h ⊢
  cases hg : session.Get (c.FormValue "state") st with
  | error e => simp [hg] at h
  | ok s =>
    simp only [hg] at h ⊢
    cases hr : s.Values oauthFlowRedirectKey with
    | none => simp [hr] at h
    | some v =>
      cases v with
      | token t => simp [hr] at h
      | profile t => simp [hr] at h
      | str redirectURL =>
        simp only [hr] at h ⊢
        cases he : env.Exchange (c.FormValue "code") with
        | error e => simp [he] at h
        | ok tok =>
          simp only [he] at h ⊢
          cases hd : session.Get defaultSessionID st with
          | error e => simp [hd] at h
          | ok sessionNew =>
            simp only [hd] at h ⊢
            cases hf : fetchProfile env tok with
            | error e => simp [hf] at h
            | ok person =>
              simp only [hf] at h ⊢
              cases hs : stripProfile person with
              | error e => simp [hs] at h
              | ok stripped =>
                simp only [hs] at h ⊢
                cases hv : Session.Save env st { sessionNew with
                    Values := (sessionNew.Values.set oauthTokenSessionKey (.token (some tok))).set
                      googleProfileSessionKey (.profile (some stripped)) } with
                | error e => simp [hv] at h
                | ok st1 =>
                  simp only [hv] at h ⊢
                  simp only [Result.Redirect.injEq] at h
                  exact ⟨s, tok, sessionNew, person, stripped, st1, rfl, by rw [← h.2]; exact hr, rfl, rfl,
                    hf, hs, hv, h.1.symm, rfl, rfl⟩

/-- A logout whose lookup and save succeed: the backend loses the default
cookie, the session saved has `MaxAge = -1`, and the response is an empty 200
page. -/
theorem logoutHandler_ok (env : Env) (c : Context) {st : Store} {s : Session}
    (hget : session.Get defaultSessionID st = .ok s)
    (hsave : ∀ s : Session, s.name = defaultSessionID → env.saveError s = none) :
    logoutHandler env c st =
      ⟨{ st with cookies := fun n => if n = defaultSessionID then Cookie.absent else st.cookies n },
        [{ s with Options := { s.Options with MaxAge := -1 } }], .HTML 200 ""⟩ := by
  have hname : s.name = defaultSessionID := (session_Get_ok hget).1
  have hs := hsave { s with Options := { s.Options with MaxAge := -1 } } hname
  unfold logoutHandler
  simp only [hget, Session.Save]
  rw [hs]
  simp [hname]

/-- With a resolved identity and a signature that succeeds, `tokenHandler`
answers 200 with the signed token, whose claims are the identity's email and
image URL and whose expiry is 180000000 seconds (50000 hours) after the
current second. -/
theorem tokenHandler_issues {env : Env} {c : Context} {st : Store} {p : Profile} {t : String}
    (hp : profileFromSession env c st = some p)
    (ht : env.SignedString ⟨p.Email, p.ImageURL, ⟨Unix env.now + 180000000⟩⟩ = .ok t) :
    (tokenHandler env c st).result = .JSON 200 (.token t) := by
  have hexp : Unix (env.now + Hour * 50000) = Unix env.now + 180000000 := by
    unfold Unix Hour
    have h : env.now + 3600 * 1000000000 * 50000 = env.now + 180000000 * 1000000000 := by ring
    rw [h, Int.fdiv_eq_ediv _ (by decide), Int.fdiv_eq_ediv _ (by decide)]
    exact Int.add_mul_ediv_right _ _ (by decide)
  unfold tokenHandler
  simp only [hp, tokenClaims, hexp, ht]

/-- With `auto=true`, a default session that holds a non-nil profile is all
`loginHandler` asks for before redirecting to `/profile`: the provider token
is not looked at. -/
theorem loginHandler_auto {env : Env} {c : Context} {st : Store} {s : Session} {p : Profile}
    (hauto : c.QueryParam "auto" = "true")
    (hget : session.Get defaultSessionID st = .ok s)
    (hp : s.Values googleProfileSessionKey = some (.profile (some p))) :
    (loginHandler env c st).result = .Redirect 302 "/profile" := by
  unfold loginHandler
  simp only [hauto, hget, hp, if_true]
  cases Session.Save env st s <;> rfl

/-- On a profile with an image and a first email, `stripProfile` returns the
identity made of exactly that image URL and that email. -/
theorem stripProfile_ok {p : plus.Person} {image : plus.PersonImage} {email : plus.PersonEmails}
    {rest : List (Option plus.PersonEmails)}
    (hi : p.Image = some image) (he : p.Emails = some email :: rest) :
    stripProfile p = .ok { ImageURL := image.Url, Email := email.Value } := by
  unfold stripProfile
  simp only [hi, he]

/-! ### The claims -/

/-- C1: the identity `profileFromSession` derives from a bearer token carrying
the claims `tokenHandler` builds for a profile has the two fields exchanged:
its image URL is the original email and its email the original image URL. For
`sampleProfile`, whose fields differ, the round trip does not give the
identity back. -/
theorem token_round_trip_exchanges_fields :
    (∀ (env : Env) (st : Store) (now : Int) (p : Profile),
      profileFromSession env (bearerContext (tokenClaims now p)) st
        = some { ImageURL := p.Email, Email := p.ImageURL }) ∧
    profileFromSession sampleEnv (bearerContext (tokenClaims sampleEnv.now sampleProfile)) emptyStore
      = some { ImageURL := "user@example.org", Email := "https://img.example/u.png" } ∧
    profileFromSession sampleEnv (bearerContext (tokenClaims sampleEnv.now sampleProfile)) emptyStore
      ≠ some sampleProfile := by
  refine ⟨fun env st now p => rfl, rfl, ?_⟩
  decide

/-- C2: the scheme-relative input `//evil.example/x` is accepted and returned
unchanged, although as a URL it has the host `evil.example`. -/
theorem validateRedirectURL_accepts_scheme_relative :
    validateRedirectURL "//evil.example/x" = ("//evil.example/x", none) ∧
    url.Parse "//evil.example/x"
      = .ok { Scheme := "", Opaque := "", User := none, Host := "evil.example", Path := "/x",
              RawQuery := "", Fragment := "" } := by
  constructor
  · decide
  · rfl

/-- C3: `validateRedirectURL` by cases. The empty string gives `/profile` with
success; a non-empty input that does not parse, or parses with a non-empty
scheme, gives `/profile` with an error; a non-empty input that parses with an
empty scheme comes back unchanged with success. So `/dashboard` is accepted
and `http://evil.example/x` is rejected. -/
theorem validateRedirectURL_cases (path : String) :
    (path = "" → validateRedirectURL path = ("/profile", none)) ∧
    (path ≠ "" →
      ((∃ e, url.Parse path = .error e) ∨ (∃ u, url.Parse path = .ok u ∧ u.Scheme ≠ "")) →
      (validateRedirectURL path).1 = "/profile" ∧ (validateRedirectURL path).2 ≠ none) ∧
    (path ≠ "" → (∃ u, url.Parse path = .ok u ∧ u.Scheme = "") →
      validateRedirectURL path = (path, none)) ∧
    validateRedirectURL "/dashboard" = ("/dashboard", none) ∧
    validateRedirectURL "http://evil.example/x" = ("/profile", some "URL must not be absolute") := by
  refine ⟨?_, ?_, ?_, by decide, by decide⟩
  · intro h
    simp [validateRedirectURL, h]
  · intro h hp
    rcases hp with ⟨e, he⟩ | ⟨u, hu, hs⟩
    · simp [validateRedirectURL, h, he]
    · simp [validateRedirectURL, h, hu, url.URL.IsAbs, hs]
  · rintro h ⟨u, hu, hs⟩
    simp [validateRedirectURL, h, hu, url.URL.IsAbs, hs]

/-- C3, at the input `/dashboard`: it is not empty, parses with an empty
scheme, and is returned unchanged with success. -/
theorem validateRedirectURL_cases_witness :
    "/dashboard" ≠ "" ∧ validateRedirectURL "/dashboard" = ("/dashboard", none) :=
  ⟨by decide, (validateRedirectURL_cases "/dashboard").2.2.1 (by decide) ⟨_, rfl, by decide⟩⟩

/-- C7: for a request with no bearer token and no session, `tokenHandler`
neither returns an error nor answers: it panics on the nil profile. The backend
is untouched and nothing is saved. -/
theorem tokenHandler_panics_without_identity :
    profileFromSession sampleEnv plainContext emptyStore = none ∧
    (tokenHandler sampleEnv plainContext emptyStore).result = .panic .nilDereference ∧
    (tokenHandler sampleEnv plainContext emptyStore).saved.length = 0 := by
  refine ⟨by decide, by decide, by decide⟩

/-- C8: `stripProfile` does not return on a profile with no email (index out
of range) nor on a profile with no image (nil dereference). -/
theorem stripProfile_panics :
    stripProfile personWithoutEmail = .error .indexOutOfRange ∧
    stripProfile personWithoutImage = .error .nilDereference := by
  exact ⟨rfl, rfl⟩

/-- C5: for a request without a verified bearer token, `profileFromSession`
returns the profile `p` exactly when the default-session lookup succeeds, the
session holds a provider token that is still valid and the session holds `p`;
when no profile meets these conditions it returns nil. -/
theorem profileFromSession_without_bearer (env : Env) (c : Context) (st : Store)
    (h : c.user = none) :
    (∀ p : Profile, profileFromSession env c st = some p ↔
      ∃ s tok, session.Get defaultSessionID st = .ok s ∧
        s.Values oauthTokenSessionKey = some (.token tok) ∧
        oauth2.Token.Valid env.now tok = true ∧
        s.Values googleProfileSessionKey = some (.profile (some p))) ∧
    ((¬ ∃ p s tok, session.Get defaultSessionID st = .ok s ∧
        s.Values oauthTokenSessionKey = some (.token tok) ∧
        oauth2.Token.Valid env.now tok = true ∧
        s.Values googleProfileSessionKey = some (.profile (some p))) →
      profileFromSession env c st = none) := by
  have key : ∀ p : Profile, profileFromSession env c st = some p ↔
      ∃ s tok, session.Get defaultSessionID st = .ok s ∧
        s.Values oauthTokenSessionKey = some (.token tok) ∧
        oauth2.Token.Valid env.now tok = true ∧
        s.Values googleProfileSessionKey = some (.profile (some p)) := by
    intro p
    unfold profileFromSession
    rw [h]
    cases hg : session.Get defaultSessionID st with
    | error e => simp
    | ok s =>
      simp only [Except.ok.injEq, exists_eq_left']
      cases ht : s.Values oauthTokenSessionKey with
      | none => simp [ht]
      | some v =>
        cases v with
        | str x => simp [ht]
        | profile x => simp [ht]
        | token tok =>
          cases hv : oauth2.Token.Valid env.now tok with
          | false => simp [ht, hv]
          | true =>
            cases hp : s.Values googleProfileSessionKey with
            | none => simp [ht, hv, hp]
            | some w =>
              cases w with
              | str x => simp [ht, hv, hp]
              | token x => simp [ht, hv, hp]
              | profile x => simp [ht, hv, hp]
  refine ⟨key, ?_⟩
  intro hno
  cases hres : profileFromSession env c st with
  | none => rfl
  | some p =>
    obtain ⟨s, tok, h1⟩ := (key p).1 hres
    exact absurd ⟨p, s, tok, h1⟩ hno

/-- C5, on a logged-in default session: the stored profile is returned. -/
theorem profileFromSession_without_bearer_witness :
    plainContext.user = none ∧
    profileFromSession sampleEnv plainContext loggedInStore = some sampleProfile :=
  ⟨rfl, ((profileFromSession_without_bearer sampleEnv plainContext loggedInStore rfl).1
    sampleProfile).2 ⟨⟨defaultSessionID, _, sampleOptions⟩, some sampleToken, rfl, by decide,
      by decide, by decide⟩⟩

/-- C9: with `auto=true` and a default session that holds a profile but only
an expired provider token, `loginHandler` takes the short-circuit: it redirects
to `/profile`, saves only the default session (no flow session) and does not
redirect to the provider, although `profileFromSession` finds no identity in
that same session. -/
theorem loginHandler_auto_ignores_token :
    oauth2.Token.Valid sampleEnv.now (some expiredToken) = false ∧
    staleStore.lookup defaultSessionID oauthTokenSessionKey = some (.token (some expiredToken)) ∧
    profileFromSession sampleEnv autoContext staleStore = none ∧
    (loginHandler sampleEnv autoContext staleStore).result = .Redirect 302 "/profile" ∧
    (loginHandler sampleEnv autoContext staleStore).saved.map Session.name = [defaultSessionID] ∧
    (loginHandler sampleEnv autoContext staleStore).store.lookup sampleEnv.newUUID
      oauthFlowRedirectKey = none := by
  refine ⟨by decide, by decide, by decide, by decide, by decide, by decide⟩

/-- C6: if the flow-session lookup fails, the stored redirect is absent, the
code exchange fails or the profile fetch fails, `oauthCallbackHandler` returns
an error, leaves the session backend as it was and saves nothing; and whenever
it saves a session or issues a redirect, all four steps succeeded, the session
saved is the default session and the redirect goes to the stored redirect. -/
theorem oauthCallbackHandler_atomic (env : Env) (c : Context) (st : Store) :
    (((∃ e, session.Get (c.FormValue "state") st = .error e) ∨
      (∃ s, session.Get (c.FormValue "state") st = .ok s ∧
        ∀ r, s.Values oauthFlowRedirectKey ≠ some (.str r)) ∨
      (∃ e, env.Exchange (c.FormValue "code") = .error e) ∨
      (∃ tok e, env.Exchange (c.FormValue "code") = .ok tok ∧ fetchProfile env tok = .error e)) →
      (∃ e, (oauthCallbackHandler env c st).result = .error e) ∧
      (oauthCallbackHandler env c st).store = st ∧
      (oauthCallbackHandler env c st).saved = []) ∧
    (((oauthCallbackHandler env c st).saved ≠ [] ∨
      (∃ code r, (oauthCallbackHandler env c st).result = .Redirect code r)) →
      ∃ s r tok person,
        session.Get (c.FormValue "state") st = .ok s ∧
        s.Values oauthFlowRedirectKey = some (.str r) ∧
        env.Exchange (c.FormValue "code") = .ok tok ∧
        fetchProfile env tok = .ok person ∧
        (oauthCallbackHandler env c st).result = .Redirect 302 r ∧
        (oauthCallbackHandler env c st).saved.map Session.name = [defaultSessionID]) := by
  constructor
  · intro hfail
    unfold oauthCallbackHandler
    cases hg : session.Get (c.FormValue "state") st with
    | error e => simp [hg]
    | ok s =>
      cases hr : s.Values oauthFlowRedirectKey with
      | none => simp [hr]
      | some v =>
        cases v with
        | token t => simp [hr]
        | profile t => simp [hr]
        | str redirectURL =>
          cases he : env.Exchange (c.FormValue "code") with
          | error e => simp [hr, he]
          | ok tok =>
            cases hd : session.Get defaultSessionID st with
            | error e => simp [hr, he, hd]
            | ok sessionNew =>
              cases hf : fetchProfile env tok with
              | error e => simp [hr, he, hd, hf]
              | ok person =>
                exfalso
                rcases hfail with ⟨e, h⟩ | ⟨s2, h, h2⟩ | ⟨e, h⟩ | ⟨tok2, e, h, h2⟩
                · rw [hg] at h
                  cases h
                · rw [hg] at h
                  cases h
                  exact h2 _ hr
                · rw [he] at h
                  cases h
                · rw [he] at h
                  cases h
                  rw [hf] at h2
                  cases h2
  · intro hdone
    have hred : ∃ code r, (oauthCallbackHandler env c st).result = .Redirect code r := by
      rcases hdone with hsaved | hred
      · by_contra hno
        apply hsaved
        unfold oauthCallbackHandler at hno ⊢
        cases hg : session.Get (c.FormValue "state") st with
        | error e => simp [hg]
        | ok s =>
          cases hr : s.Values oauthFlowRedirectKey with
          | none => simp [hr]
          | some v =>
            cases v with
            | token t => simp [hr]
            | profile t => simp [hr]
            | str redirectURL =>
              cases he : env.Exchange (c.FormValue "code") with
              | error e => simp [hr, he]
              | ok tok =>
                cases hd : session.Get defaultSessionID st with
                | error e => simp [hr, he, hd]
                | ok sessionNew =>
                  cases hf : fetchProfile env tok with
                  | error e => simp [hr, he, hd, hf]
                  | ok person =>
                    cases hs : stripProfile person with
                    | error e => simp [hr, he, hd, hf, hs]
                    | ok stripped =>
                      cases hv : Session.Save env st { sessionNew with
                          Values := (sessionNew.Values.set oauthTokenSessionKey
                            (.token (some tok))).set googleProfileSessionKey
                            (.profile (some stripped)) } with
                      | error e => simp [hr, he, hd, hf, hs, hv]
                      | ok st1 =>
                        exfalso
                        apply hno
                        simp [hg, hr, he, hd, hf, hs, hv]
      · exact hred
    obtain ⟨code, r, hres⟩ := hred
    obtain ⟨s, tok, sessionNew, person, stripped, st1, h1, h2, h3, h4, h5, _, _, h8, _, h10⟩ :=
      oauthCallbackHandler_redirect_inv hres
    refine ⟨s, r, tok, person, h1, h2, h3, h5, ?_, ?_⟩
    · rw [hres, h8]
    · rw [h10]
      simp [(session_Get_ok h4).1]

/-- C6, on the flow session `S` when the provider rejects the code: the
handler returns the exchange error and the backend still has no default
session. -/
theorem oauthCallbackHandler_atomic_witness :
    (∃ e, sampleEnv.Exchange (rejectedContext.FormValue "code") = .error e) ∧
    (∃ e, (oauthCallbackHandler sampleEnv rejectedContext pendingStore).result = .error e) ∧
    (oauthCallbackHandler sampleEnv rejectedContext pendingStore).store = pendingStore ∧
    (oauthCallbackHandler sampleEnv rejectedContext pendingStore).saved = [] :=
  ⟨⟨"invalid_grant", rfl⟩,
    (oauthCallbackHandler_atomic sampleEnv rejectedContext pendingStore).1
      (Or.inr (Or.inr (Or.inl ⟨"invalid_grant", rfl⟩)))⟩

/-- C10: from a default-session state whose lookup succeeds, with saving of
the default session working, `logoutHandler` saves the default session with a
negative max age and answers 200 with an empty body, whatever the request
parameters; a second call (with any parameters) gives the same response and
leaves the backend exactly as the first call left it, with no default session
in it. -/
theorem logoutHandler_idempotent (env : Env) (c c2 : Context) (st : Store)
    (hget : ∃ s, session.Get defaultSessionID st = .ok s)
    (hsave : ∀ s : Session, s.name = defaultSessionID → env.saveError s = none) :
    (∃ s, (logoutHandler env c st).saved = [s] ∧ s.name = defaultSessionID ∧
      s.Options.MaxAge < 0) ∧
    (logoutHandler env c st).result = .HTML 200 "" ∧
    (logoutHandler env c2 (logoutHandler env c st).store).result
      = (logoutHandler env c st).result ∧
    (logoutHandler env c2 (logoutHandler env c st).store).store
      = (logoutHandler env c st).store ∧
    (∀ key, (logoutHandler env c st).store.lookup defaultSessionID key = none) := by
  obtain ⟨s, hs⟩ := hget
  have h1 := logoutHandler_ok env c hs hsave
  have hget2 : session.Get defaultSessionID (logoutHandler env c st).store
      = .ok ⟨defaultSessionID, Values.empty, st.Options⟩ := by
    rw [h1]
    simp [session.Get]
  have h2 := logoutHandler_ok env c2 hget2 hsave
  refine ⟨⟨{ s with Options := { s.Options with MaxAge := -1 } }, by rw [h1],
    (session_Get_ok hs).1, by simp⟩, by rw [h1], ?_, ?_, ?_⟩
  · rw [h2, h1]
  · rw [h2]
    rw [h1]
    simp only [Store.mk.injEq, and_true]
    funext n
    by_cases hn : n = defaultSessionID <;> simp [hn]
  · intro key
    rw [h1]
    simp [Store.lookup]

/-- C10, logging out of `loggedInStore` twice: both calls answer 200 with an
empty body and the second leaves the backend as the first did. -/
theorem logoutHandler_idempotent_witness :
    (∃ s, session.Get defaultSessionID loggedInStore = .ok s) ∧
    (logoutHandler sampleEnv plainContext loggedInStore).result = .HTML 200 "" ∧
    (logoutHandler sampleEnv callbackContext
      (logoutHandler sampleEnv plainContext loggedInStore).store).store
      = (logoutHandler sampleEnv plainContext loggedInStore).store :=
  ⟨⟨_, rfl⟩,
    (logoutHandler_idempotent sampleEnv plainContext callbackContext loggedInStore ⟨_, rfl⟩
      (fun _ _ => rfl)).2.1,
    (logoutHandler_idempotent sampleEnv plainContext callbackContext loggedInStore ⟨_, rfl⟩
      (fun _ _ => rfl)).2.2.2.1⟩

/-- C4, on the flow session `S` and the code `C`: the callback completes with
a redirect to `/reports`, the flow session `S` still holds its stored redirect
afterwards, and a second callback with the same `S` and `C` completes with the
same redirect instead of failing with the invalid-state error. -/
theorem oauthCallbackHandler_replay_accepted :
    (oauthCallbackHandler sampleEnv callbackContext pendingStore).result
      = .Redirect 302 "/reports" ∧
    (oauthCallbackHandler sampleEnv callbackContext pendingStore).store.lookup "S"
      oauthFlowRedirectKey = some (.str "/reports") ∧
    (oauthCallbackHandler sampleEnv callbackContext
      (oauthCallbackHandler sampleEnv callbackContext pendingStore).store).result
      = .Redirect 302 "/reports" ∧
    (oauthCallbackHandler sampleEnv callbackContext
      (oauthCallbackHandler sampleEnv callbackContext pendingStore).store).result
      ≠ .error "invalid state parameter. try logging in again." := by
  refine ⟨by decide, by decide, by decide, by decide⟩

/-- C4, amended: after a callback that completed with a redirect for a state
token other than the default session's name, the flow session keyed by that
token still holds the stored redirect; so a second callback with the same
state and code, whatever the provider answers then, does not fail with the
invalid-state error, and when the code exchange fails it is the exchange error
that comes back. -/
theorem oauthCallbackHandler_replay (env env2 : Env) (c : Context) (st : Store) (r : String)
    (hS : c.FormValue "state" ≠ defaultSessionID)
    (h1 : (oauthCallbackHandler env c st).result = .Redirect 302 r) :
    (oauthCallbackHandler env c st).store.lookup (c.FormValue "state") oauthFlowRedirectKey
      = some (.str r) ∧
    (oauthCallbackHandler env2 c (oauthCallbackHandler env c st).store).result
      ≠ .error "invalid state parameter. try logging in again." ∧
    (∀ e, env2.Exchange (c.FormValue "code") = .error e →
      (oauthCallbackHandler env2 c (oauthCallbackHandler env c st).store).result
        = .error ("could not get auth token: " ++ e)) := by
  obtain ⟨s, tok, sessionNew, person, stripped, st1, hg, hr, _, hd, _, _, hv, _, hst, _⟩ :=
    oauthCallbackHandler_redirect_inv h1
  have hname : sessionNew.name = defaultSessionID := (session_Get_ok hd).1
  obtain ⟨_, hother, _⟩ := Session_Save_cookies hv
  have hcookie : st1.cookies (c.FormValue "state") = st.cookies (c.FormValue "state") :=
    hother _ (by simpa [hname] using hS)
  have hlook : st1.lookup (c.FormValue "state") oauthFlowRedirectKey = some (.str r) := by
    have := session_Get_lookup hg hr
    simpa [Store.lookup, hcookie] using this
  obtain ⟨s2, hg2, hr2⟩ := lookup_session_Get hlook
  rw [hst]
  refine ⟨hlook, ?_, ?_⟩
  · unfold oauthCallbackHandler
    simp only [hg2, hr2]
    cases he : env2.Exchange (c.FormValue "code") with
    | error e => simp [auth_token_error_ne]
    | ok tok2 =>
      cases hd2 : session.Get defaultSessionID st1 with
      | error e => simp [default_session_error_ne]
      | ok sessionNew2 =>
        cases hf2 : fetchProfile env2 tok2 with
        | error e => simp [hf2, fetch_profile_error_ne]
        | ok person2 =>
          cases hs2 : stripProfile person2 with
          | error e => simp [hf2, hs2]
          | ok stripped2 =>
            simp only [hf2, hs2]
            split
            · simp [save_session_error_ne]
            · simp
  · intro e he
    unfold oauthCallbackHandler
    simp [hg2, hr2, he]

/-- C4, amended, on the flow session `S` and the code `C`: the first callback
redirects to `/reports`; replayed against a provider that now rejects the
code, the callback fails with the exchange error, not the invalid-state
error. -/
theorem oauthCallbackHandler_replay_witness :
    callbackContext.FormValue "state" ≠ defaultSessionID ∧
    (oauthCallbackHandler sampleEnv callbackContext pendingStore).result
      = .Redirect 302 "/reports" ∧
    (oauthCallbackHandler replayEnv callbackContext
      (oauthCallbackHandler sampleEnv callbackContext pendingStore).store).result
      = .error ("could not get auth token: " ++ "invalid_grant") :=
  ⟨by decide, by decide,
    (oauthCallbackHandler_replay sampleEnv replayEnv callbackContext pendingStore "/reports"
      (by decide) (by decide)).2.2 "invalid_grant" rfl⟩

end secure
